import Mathlib

/-
  Verification of the cytube-bot event/command engine.

  The embedding follows the repository sources:
  - src/cytube_bot_async/error.py (error taxonomy)
  - src/lib/bot.py (engine: dispatcher, login loop, command surface,
    inbound event handlers)
  - the Channel / Playlist / MediaLink model, whose implementation files
    are exercised by src/tests/unit/test_channel.py, test_playlist.py and
    test_media_link.py; those modules are modelled from the specification
    (each such definition carries a doc comment saying so).

  Python floats (ranks, clocks) are embedded as rationals; machine-level
  floating point is out of scope of the embedding.
-/

set_option maxRecDepth 100000

namespace Cytube

/-- Error taxonomy from src/cytube_bot_async/error.py, plus Python's
ValueError (configuration errors) and cancellation, which the engine
treats as distinct control signals. -/
inductive BotError where
  | loginError (msg : String)
  | kicked (msg : String)
  | channelError (msg : String)
  | channelPermissionError (msg : String)
  | socketIOError (msg : String)
  | valueError (msg : String)
  deriving Repr, DecidableEq

instance {ε α : Type} [DecidableEq ε] [DecidableEq α] : DecidableEq (Except ε α) := fun x y =>
  match x, y with
  | .ok a, .ok b =>
    if h : a = b then .isTrue (by rw [h]) else .isFalse (fun hh => h (Except.ok.inj hh))
  | .error a, .error b =>
    if h : a = b then .isTrue (by rw [h]) else .isFalse (fun hh => h (Except.error.inj hh))
  | .ok _, .error _ => .isFalse (fun hh => Except.noConfusion hh)
  | .error _, .ok _ => .isFalse (fun hh => Except.noConfusion hh)

/-- Bot/room participant, from src/lib/bot.py usage of cytube_bot.user.User:
name, float rank (−1 when logged out), afk / muted / shadow-muted flags and
free-form metadata (modelled as string-keyed boolean flags, the shape the
tests exercise). -/
structure User where
  name : String
  password : Option String := none
  rank : ℚ := -1
  afk : Bool := false
  muted : Bool := false
  smuted : Bool := false
  meta : List (String × Bool) := []
  deriving Repr, DecidableEq

/-- Kernel-computable rational addition (library + on ℚ is irreducible);
radd_eq below proves it equal to +. -/
def radd (a b : ℚ) : ℚ :=
  mkRat (a.num * b.den + b.num * a.den) (a.den * b.den)

/-- Render a rational with two decimal places (the spec's rank formatting),
rounding half up: the integer n is the floor of q * 100 + 1/2, computed by
euclidean division to stay kernel-computable. -/
def fmt2 (q : ℚ) : String :=
  let n : Int := Int.ediv (q.num * 200 + q.den) (2 * q.den)
  let sign := if n < 0 then "-" else ""
  let m := n.natAbs
  let frac := m % 100
  sign ++ toString (m / 100) ++ "." ++ (if frac < 10 then "0" else "") ++ toString frac

/-- Playlist entry, from the shape used by src/lib/bot.py and
src/tests/unit/test_playlist.py: identity is by uid. -/
structure PlaylistItem where
  uid : Nat
  temp : Bool := false
  username : String := ""
  title : String := ""
  duration : Nat := 0
  mediaType : String := ""
  mediaId : String := ""
  deriving Repr, DecidableEq

/-- Modelled from the spec: the Playlist class (lib/playlist.py is not
present under src/, only its unit tests are). Ordered queue, current
pointer (held as a uid), playback clock, paused and locked flags. -/
structure Playlist where
  queue : List PlaylistItem := []
  time : ℚ := 0
  locked : Bool := false
  paused : Bool := true
  current_time : ℚ := 0
  current : Option Nat := none
  deriving Repr, DecidableEq

/-- Modelled from the spec: Playlist.get — find the entry with a uid,
failing with a not-found error (ValueError) if absent. -/
def Playlist.get (pl : Playlist) (uid : Nat) : Except BotError PlaylistItem :=
  match pl.queue.find? (fun it => it.uid == uid) with
  | some it => .ok it
  | none => .error (.valueError "item not found")

/-- Modelled from the spec: Playlist.add — after = none appends; inserting
after a non-existent uid fails with ValueError. -/
def Playlist.add (pl : Playlist) (after : Option Nat) (item : PlaylistItem) :
    Except BotError Playlist :=
  match after with
  | none => .ok { pl with queue := pl.queue ++ [item] }
  | some a =>
    match pl.queue.findIdx? (fun it => it.uid == a) with
    | none => .error (.valueError "item not found")
    | some i => .ok { pl with queue := pl.queue.take (i + 1) ++ item :: pl.queue.drop (i + 1) }

/-- Modelled from the spec: Playlist.remove — fails with ValueError if the
uid is absent; if the removed entry was current, resets current to none,
the playback time to 0 and paused to true. -/
def Playlist.remove (pl : Playlist) (uid : Nat) : Except BotError Playlist :=
  if pl.queue.any (fun it => it.uid == uid) then
    if pl.current == some uid then
      .ok { pl with queue := pl.queue.eraseP (fun it => it.uid == uid),
                    current := none, current_time := 0, paused := true }
    else
      .ok { pl with queue := pl.queue.eraseP (fun it => it.uid == uid) }
  else
    .error (.valueError "item not found")

/-- Modelled from the spec: Playlist.move is defined as remove followed by
insert-after (the inherited quirk: moving the current entry resets it). -/
def Playlist.move (pl : Playlist) (fromUid afterUid : Nat) : Except BotError Playlist :=
  match pl.get fromUid with
  | .error e => .error e
  | .ok item =>
    match pl.remove fromUid with
    | .error e => .error e
    | .ok pl' => pl'.add (some afterUid) item

/-- Modelled from the spec: the Channel class (lib/channel.py is not
present under src/, only its unit tests are). Aggregates the roster, the
playlist, the permission table (action → minimum rank) and room metadata. -/
structure Channel where
  name : String := ""
  password : Option String := none
  permissions : List (String × ℚ) := []
  motd : String := ""
  css : String := ""
  js : String := ""
  userlist : List User := []
  leader : Option String := none
  usercount : Nat := 0
  playlist : Playlist := {}
  drink_count : Nat := 0
  voteskip_count : Nat := 0
  voteskip_need : Nat := 0
  deriving Repr, DecidableEq

/-- The rank comparison tolerance (Channel.RANK_PRECISION = 1e-4), built
with the smart constructor to stay kernel-computable. -/
def RANK_PRECISION : ℚ := mkRat 1 10000

/-- The permission-denied message: names the action, the participant and
both ranks formatted to 2 decimals. -/
def permDeniedMsg (action : String) (u : User) (minRank : ℚ) : String :=
  action ++ ": permission denied: " ++ u.name ++ " (" ++ fmt2 u.rank ++ " < " ++ fmt2 minRank ++ ")"

/-- Modelled from the spec: Channel.check_permission — an action absent
from the table is a configuration error (ValueError), distinct from a
denial; otherwise pass iff rank + RANK_PRECISION is at least the required
rank; on failure with throw, raise the permission-denied error, else
return false. -/
def Channel.check_permission (c : Channel) (action : String) (u : User)
    (throw : Bool := true) : Except BotError Bool :=
  match c.permissions.lookup action with
  | none => .error (.valueError ("unknown action: " ++ action))
  | some minRank =>
    if radd u.rank RANK_PRECISION < minRank then
      if throw then .error (.channelPermissionError (permDeniedMsg action u minRank))
      else .ok false
    else .ok true

/-- Modelled from the spec: has_permission = check_permission with
throw = false. -/
def Channel.has_permission (c : Channel) (action : String) (u : User) : Except BotError Bool :=
  c.check_permission action u false

/-- Sample playlist items for concrete checks (uids 1..3, defaults
elsewhere). -/
def it1 : PlaylistItem := { uid := 1 }

/-- Second sample item. -/
def it2 : PlaylistItem := { uid := 2 }

/-- Third sample item. -/
def it3 : PlaylistItem := { uid := 3 }

/-- A playlist [1,2,3] currently playing uid 2 at 45 seconds, unpaused. -/
def samplePl : Playlist :=
  { queue := [it1, it2, it3], current := some 2, current_time := 45, paused := false }

/-- The expected result of removing uid 2 from samplePl. -/
def samplePlRemoved : Playlist := { queue := [it1, it3] }

/-- A playlist [1,2,3] currently playing uid 1 (defaults elsewhere). -/
def samplePlCur1 : Playlist := { queue := [it1, it2, it3], current := some 1 }

/-- Modelled from the spec: the MediaLink value type (lib/media_link.py is
not present under src/, only its unit tests are): provider code plus
opaque id. -/
structure MediaLink where
  type : String
  id : String
  deriving Repr, DecidableEq

/-- The allow-listed raw-file extensions (a representative subset of
MediaLink.FILE_TYPES as exercised by the tests), as character lists. -/
def FILE_TYPES : List (List Char) :=
  [".mp4".toList, ".webm".toList, ".ogg".toList, ".mp3".toList, ".flv".toList]

/-- Strip surrounding spaces from a character list (URL strip). -/
def trimChars (cs : List Char) : List Char :=
  ((cs.dropWhile (fun c => c == ' ')).reverse.dropWhile (fun c => c == ' ')).reverse

/-- Drop a literal pattern from the front of a character list, or fail. -/
def dropPat : List Char → List Char → Option (List Char)
  | [], cs => some cs
  | _ :: _, [] => none
  | p :: ps, c :: cs => if p == c then dropPat ps cs else none

/-- Whether a character list starts with a literal pattern. -/
def hasPat (pat cs : List Char) : Bool :=
  (dropPat pat cs).isSome

/-- Truncate an id at the first query or fragment separator. -/
def cutQ (cs : List Char) : List Char :=
  cs.takeWhile (fun c => c ≠ '&' ∧ c ≠ '#')

/-- The extension of a URL: the suffix from the last dot (a path-crossing
or empty result simply fails the allow-list check, as with the original
anchored regex). -/
def lastExt (cs : List Char) : List Char :=
  let rev := cs.reverse
  let ext := rev.takeWhile (fun c => c ≠ '.')
  if rev.length == ext.length then [] else '.' :: ext.reverse

/-- Parse an explicit provider-code:id form. -/
def prefixForm (cs : List Char) : Option (String × String) :=
  match cs with
  | a :: b :: ':' :: rest =>
    if a.isAlpha && b.isAlpha then some (String.mk [a, b], String.mk rest) else none
  | _ => none

/-- Modelled from the spec: MediaLink.from_url — an ordered provider
pattern table, first match wins; secure raw-file URLs restricted to the
extension allow-list; insecure schemes and unknown extensions rejected
with a descriptive error. The table entries follow the provider behaviors
pinned by src/tests/unit/test_media_link.py. -/
def MediaLink.from_url (raw : String) : Except BotError MediaLink :=
  let cs := trimChars raw.toList
  let s := String.mk cs
  match dropPat "https://youtube.com/watch?v=".toList cs with
  | some r => .ok ⟨"yt", String.mk (cutQ r)⟩
  | none =>
  match dropPat "https://youtu.be/".toList cs with
  | some r => .ok ⟨"yt", String.mk (cutQ r)⟩
  | none =>
  match dropPat "https://youtube.com/playlist?list=".toList cs with
  | some r => .ok ⟨"yp", String.mk (cutQ r)⟩
  | none =>
  match dropPat "https://clips.twitch.tv/".toList cs with
  | some r => .ok ⟨"tc", String.mk r⟩
  | none =>
  match dropPat "https://twitch.tv/videos/".toList cs with
  | some r => .ok ⟨"tv", String.mk ('v' :: r)⟩
  | none =>
  match dropPat "https://twitch.tv/".toList cs with
  | some r => .ok ⟨"tw", String.mk r⟩
  | none =>
  match dropPat "https://vimeo.com/".toList cs with
  | some r => .ok ⟨"vi", String.mk r⟩
  | none =>
  match dropPat "https://dailymotion.com/video/".toList cs with
  | some r => .ok ⟨"dm", String.mk r⟩
  | none =>
  if hasPat "https://soundcloud.com/".toList cs then .ok ⟨"sc", s⟩
  else
  match dropPat "https://streamable.com/".toList cs with
  | some r => .ok ⟨"sb", String.mk r⟩
  | none =>
  if hasPat "https://".toList cs then
    if lastExt cs == ".m3u8".toList then .ok ⟨"hl", s⟩
    else if lastExt cs == ".json".toList then .ok ⟨"cm", s⟩
    else if FILE_TYPES.contains (lastExt cs) then .ok ⟨"fi", s⟩
    else .error (.valueError "url does not match the supported file extensions")
  else if hasPat "http://".toList cs then
    .error (.valueError "url must begin with \"https\"")
  else if hasPat "rtmp://".toList cs then .ok ⟨"rt", s⟩
  else
    match prefixForm cs with
    | some (t, i) => .ok ⟨t, i⟩
    | none => .error (.valueError "unknown url")

/-- Modelled from the spec: MediaLink.url — table-driven synthesis by
provider code; an absent mapping warns and falls back to the textual
code:id form. -/
def MediaLink.url : MediaLink → String
  | ⟨"yt", i⟩ => "https://youtube.com/watch?v=" ++ i
  | ⟨"yp", i⟩ => "https://youtube.com/playlist?list=" ++ i
  | ⟨"tc", i⟩ => "https://clips.twitch.tv/" ++ i
  | ⟨"tw", i⟩ => "https://twitch.tv/" ++ i
  | ⟨"vi", i⟩ => "https://vimeo.com/" ++ i
  | ⟨"dm", i⟩ => "https://dailymotion.com/video/" ++ i
  | ⟨"sc", i⟩ => "https://soundcloud.com/" ++ i
  | ⟨"sb", i⟩ => "https://streamable.com/" ++ i
  | ⟨"fi", i⟩ => i
  | ⟨"hl", i⟩ => i
  | ⟨"cm", i⟩ => i
  | ⟨"rt", i⟩ => i
  | ⟨t, i⟩ => t ++ ":" ++ i

/-- Engine state: the bot's own user and the channel mirror
(src/lib/bot.py Bot.user / Bot.channel). -/
structure BotState where
  user : User
  channel : Channel
  deriving Repr, DecidableEq

/-- Outbound socket.io payloads the command surface emits
(src/lib/bot.py socket.emit calls). chatCommand is an emission carrying
only a msg key (set_afk's chatMsg without meta). -/
inductive Payload where
  | chatMsgP (msg : String) (meta : List (String × String))
  | chatCommand (msg : String)
  | pmP (toName : String) (msg : String) (meta : List (String × String))
  deriving Repr, DecidableEq

/-- Response record for chat-like correlation events (the fields the code
reads from res[1]). -/
structure ChatData where
  username : Option String := none
  msg : Option String := none
  toName : Option String := none
  deriving Repr, DecidableEq

/-- The chat correlation predicate from Bot.chat.match_chat_response:
noflood always matches; chatMsg matches when the username is the bot's
own. -/
def matchChatResponse (selfName : String) (ev : String) (d : ChatData) : Bool :=
  if ev == "noflood" then true
  else if ev == "chatMsg" then d.username == some selfName
  else false

/-- The pm correlation predicate from Bot.pm.match_pm_response: errorMsg
always matches; pm matches when username is the bot's own and the
recipient matches. -/
def matchPmResponse (selfName toName : String) (ev : String) (d : ChatData) : Bool :=
  if ev == "errorMsg" then true
  else if ev == "pm" then d.username == some selfName && d.toName == some toName
  else false

/-- Bot.chat from src/lib/bot.py: check the chat permission, then the
muted/shadow-muted flags, then emit and correlate. The socket's matched
response (or timeout) is passed in as a parameter; the result carries the
unchanged state, the emitted payloads and the outcome. -/
def Bot.chat (st : BotState) (msg : String) (meta : List (String × String))
    (resp : Option (String × ChatData)) :
    BotState × List Payload × Except BotError ChatData :=
  match st.channel.check_permission "chat" st.user true with
  | .error e => (st, [], .error e)
  | .ok _ =>
    if st.user.muted || st.user.smuted then
      (st, [], .error (.channelPermissionError "muted"))
    else
      match resp with
      | none => (st, [.chatMsgP msg meta], .error (.channelError "could not send chat message"))
      | some (ev, d) =>
        if ev == "noflood" then
          (st, [.chatMsgP msg meta], .error (.channelPermissionError (d.msg.getD "noflood")))
        else
          (st, [.chatMsgP msg meta], .ok d)

/-- Bot.pm from src/lib/bot.py: same chat permission and muted gate, then
emit a pm and correlate (errorMsg rejection carries the server message as
a generic channel error). -/
def Bot.pm (st : BotState) (toName msg : String) (meta : List (String × String))
    (resp : Option (String × ChatData)) :
    BotState × List Payload × Except BotError ChatData :=
  match st.channel.check_permission "chat" st.user true with
  | .error e => (st, [], .error e)
  | .ok _ =>
    if st.user.muted || st.user.smuted then
      (st, [], .error (.channelPermissionError "muted"))
    else
      match resp with
      | none => (st, [.pmP toName msg meta], .error (.channelError "could not send private message"))
      | some (ev, d) =>
        if ev == "errorMsg" then
          (st, [.pmP toName msg meta], .error (.channelError (d.msg.getD "<no message>")))
        else
          (st, [.pmP toName msg meta], .ok d)

/-- Bot.set_afk from src/lib/bot.py: emits the /afk chat command whenever
the afk flag differs from the requested value — with no permission check
of any kind (its docstring nevertheless documents
ChannelPermissionError). -/
def Bot.set_afk (st : BotState) (value : Bool) : BotState × List Payload × Except BotError Unit :=
  if st.user.afk != value then (st, [.chatCommand "/afk"], .ok ())
  else (st, [], .ok ())

/-- Payload record for setUserMeta (name may be missing or blank). -/
structure NameMeta where
  name : Option String := none
  meta : List (String × Bool) := []
  deriving Repr, DecidableEq

/-- Payload record for setUserRank. -/
structure NameRank where
  name : Option String := none
  rank : ℚ := 0
  deriving Repr, DecidableEq

/-- Payload record for setAFK. -/
structure NameAfk where
  name : Option String := none
  afk : Bool := false
  deriving Repr, DecidableEq

/-- Bot._on_setUserMeta from src/lib/bot.py: a blank or missing name is a
no-op; a name not in the userlist is a logged no-op; otherwise update that
participant's metadata. -/
def Bot.on_setUserMeta (st : BotState) (d : NameMeta) : BotState :=
  let n := d.name.getD ""
  if n == "" then st
  else if st.channel.userlist.any (fun u => u.name == n) then
    { st with channel := { st.channel with
        userlist := st.channel.userlist.map
          (fun u => if u.name == n then { u with meta := d.meta } else u) } }
  else st

/-- Bot._on_setUserRank from src/lib/bot.py: same blank / unknown-name
tolerance, updating the participant's rank. -/
def Bot.on_setUserRank (st : BotState) (d : NameRank) : BotState :=
  let n := d.name.getD ""
  if n == "" then st
  else if st.channel.userlist.any (fun u => u.name == n) then
    { st with channel := { st.channel with
        userlist := st.channel.userlist.map
          (fun u => if u.name == n then { u with rank := d.rank } else u) } }
  else st

/-- Bot._on_setAFK from src/lib/bot.py: same blank / unknown-name
tolerance, updating the participant's afk flag. -/
def Bot.on_setAFK (st : BotState) (d : NameAfk) : BotState :=
  let n := d.name.getD ""
  if n == "" then st
  else if st.channel.userlist.any (fun u => u.name == n) then
    { st with channel := { st.channel with
        userlist := st.channel.userlist.map
          (fun u => if u.name == n then { u with afk := d.afk } else u) } }
  else st

/-- Handler faults: the control signals (cancellation, LoginError, Kicked)
that Bot.trigger re-raises, versus any other exception. -/
inductive Fault where
  | cancelled
  | loginErr (msg : String)
  | kickedF (msg : String)
  | other (msg : String)
  deriving Repr, DecidableEq

/-- Whether a fault is one of the control signals that propagate out of
trigger (the except clause re-raising CancelledError, LoginError and
Kicked). -/
def Fault.isControl : Fault → Bool
  | .other _ => false
  | _ => true

/-- Event payloads for the dispatcher; errEvent is the synthetic payload
of the re-raised error event, carrying the original event, payload and
exception. -/
inductive EvData where
  | payload (s : String)
  | errEvent (event : String) (data : EvData) (err : Fault)
  deriving Repr, DecidableEq

/-- A dispatcher handler: receives event name, payload and state; returns
the new state and a truthy stop flag, or raises a fault. -/
def Handler (St : Type) := String → EvData → St → Except Fault (St × Bool)

/-- The handler registry (Bot.handlers): event name to ordered handler
list. -/
def HandlerMap (St : Type) := String → List (Handler St)

/-- The dispatch loop inside Bot.trigger: invoke handlers in registration
order, stopping on a truthy return; a raising handler ends the loop with
its fault (prior handlers' state changes are kept). -/
def Bot.runHandlers {St : Type} : List (Handler St) → String → EvData → St → St × Option Fault
  | [], _, _, s => (s, none)
  | h :: rest, ev, d, s =>
    match h ev d s with
    | .error f => (s, some f)
    | .ok (s', true) => (s', none)
    | .ok (s', false) => Bot.runHandlers rest ev d s'

/-- Bot.trigger from src/lib/bot.py: run the event's handlers; control
faults propagate unchanged; any other fault is re-raised as one synthetic
error event (whose own non-control faults are swallowed, since the nested
trigger call has event = error and does not recurse); an original event
that is already error never re-raises. The second component lists the
synthetic dispatches performed. -/
def Bot.trigger {St : Type} (hm : HandlerMap St) (ev : String) (d : EvData) (s : St) :
    Except Fault St × List (String × EvData) :=
  match Bot.runHandlers (hm ev) ev d s with
  | (s1, none) => (.ok s1, [])
  | (s1, some f) =>
    if f.isControl then (.error f, [])
    else if ev == "error" then (.ok s1, [])
    else
      match Bot.runHandlers (hm "error") "error" (EvData.errEvent ev d f) s1 with
      | (s2, none) => (.ok s2, [("error", EvData.errEvent ev d f)])
      | (s2, some g) =>
        if g.isControl then (.error g, [("error", EvData.errEvent ev d f)])
        else (.ok s2, [("error", EvData.errEvent ev d f)])

/-- Numeric value of a digit run. -/
def digitsToNat (ds : List Char) : Nat :=
  ds.foldl (fun a c => 10 * a + (c.toNat - 48)) 0

/-- Match the tail of the GUEST_LOGIN_LIMIT pattern at one position: a
space, a digit run, then the literal tail, yielding the seconds. -/
def limitAt : List Char → Option Nat
  | ' ' :: rest =>
    let ds := rest.takeWhile (fun c => c.isDigit)
    if ds.isEmpty then none
    else if hasPat " seconds.".toList (rest.drop ds.length) then some (digitsToNat ds)
    else none
  | _ => none

/-- Scan for the rightmost position matching the pattern tail (the greedy
dot-star of the regex selects the last occurrence). -/
def scanLimit : List Char → Option Nat
  | [] => none
  | c :: rest =>
    match scanLimit rest with
    | some n => some n
    | none => limitAt (c :: rest)

/-- Bot.GUEST_LOGIN_LIMIT from src/lib/bot.py: the case-insensitive,
start-anchored pattern matching a guest-login rate-limit message and
extracting the cooldown seconds. -/
def guestLoginLimit (s : String) : Option Nat :=
  let cs := s.toList.map Char.toLower
  if hasPat "guest logins ".toList cs then scanLimit (cs.drop 13) else none

/-- A login response: the payload of the matched login event, or a
timeout. -/
structure LoginData where
  success : Bool := false
  error : Option String := none
  deriving Repr, DecidableEq

/-- Payload of a synthetic engine event; selfRef marks the engine itself
(trigger of the login event passes the Bot). -/
inductive TrigPayload where
  | selfRef
  deriving Repr, DecidableEq

/-- The account-login retry loop inside Bot.login, driven by the list of
successive login responses (none is a response timeout). Returns the
sleeps performed and the outcome. -/
def Bot.loginLoop : List (Option LoginData) → List Nat × Except BotError Unit
  | [] => ([], .error (.socketIOError "login response timeout"))
  | none :: _ => ([], .error (.socketIOError "login response timeout"))
  | some d :: rest =>
    if d.success then ([], .ok ())
    else
      match guestLoginLimit (d.error.getD "<no error message>") with
      | some n => (max n 1 :: (Bot.loginLoop rest).1, (Bot.loginLoop rest).2)
      | none => ([], .error (.loginError (d.error.getD "<no error message>")))

/-- Bot.login from src/lib/bot.py, after connection: join the channel
(needPassword is fatal), then — if an account identity is configured —
run the login retry loop; on success, including anonymous mode, trigger
the synthetic login event carrying the engine itself. Returns sleeps,
triggered events and the outcome. -/
def Bot.login (st : BotState) (joinResp : Option String)
    (loginResps : List (Option LoginData)) :
    List Nat × List (String × TrigPayload) × Except BotError Unit :=
  match joinResp with
  | none => ([], [], .error (.socketIOError "joinChannel response timeout"))
  | some ev =>
    if ev == "needPassword" then ([], [], .error (.loginError "invalid channel password"))
    else if st.user.name == "" then ([], [("login", TrigPayload.selfRef)], .ok ())
    else
      match Bot.loginLoop loginResps with
      | (sl, .ok _) => (sl, [("login", TrigPayload.selfRef)], .ok ())
      | (sl, .error e) => (sl, [], .error e)

/-- A bot state whose user is denied every table permission (rank 0
against a chat requirement of 3) — exercises set_afk's missing guard. -/
def deniedState : BotState :=
  { user := { name := "bot", rank := 0 },
    channel := { name := "room", permissions := [("chat", 3)] } }

/-- A bot state whose user holds the chat permission and is muted. -/
def mutedState : BotState :=
  { user := { name := "bot", rank := 1, muted := true },
    channel := { name := "room", permissions := [("chat", 0)] } }

/-- A bot state whose user holds the chat permission, unmuted. -/
def okState : BotState :=
  { user := { name := "bot", rank := 1 },
    channel := { name := "room", permissions := [("chat", 0)] } }

/-- A bot state with an anonymous user (no account identity). -/
def anonState : BotState :=
  { user := { name := "" }, channel := { name := "room" } }

/-- The rate-limit rejection message used in the login tests. -/
def limitMsg : String := "guest logins restricted for 2 seconds."

/-- A handler that always raises a non-control fault. -/
def badHandler : Handler Nat := fun _ _ _ => .error (.other "boom")

/-- A handler map with one faulting handler on the evt event. -/
def testMap : HandlerMap Nat := fun ev => if ev == "evt" then [badHandler] else []

/-- The computable addition agrees with rational addition. -/
theorem radd_eq (a b : ℚ) : radd a b = a + b := by
  have ha : ((a.den : ℚ)) ≠ 0 := Nat.cast_ne_zero.mpr a.den_nz
  have hb : ((b.den : ℚ)) ≠ 0 := Nat.cast_ne_zero.mpr b.den_nz
  rw [radd, Rat.mkRat_eq_divInt, Rat.divInt_eq_div]
  conv_rhs => rw [← Rat.num_div_den a, ← Rat.num_div_den b]
  rw [div_add_div _ _ ha hb]
  push_cast
  ring_nf

/-- Arithmetic fact: 0.9999 + the precision tolerance is exactly 1. -/
theorem rank_sum_9999 : (9999 / 10000 : ℚ) + RANK_PRECISION = 1 := by
  rw [RANK_PRECISION, Rat.mkRat_eq_divInt, Rat.divInt_eq_div]
  norm_num

/-- Arithmetic fact: 0.9998 + the precision tolerance is 0.9999. -/
theorem rank_sum_9998 : (9998 / 10000 : ℚ) + RANK_PRECISION = 9999 / 10000 := by
  rw [RANK_PRECISION, Rat.mkRat_eq_divInt, Rat.divInt_eq_div]
  norm_num

/-- Arithmetic fact: 0.9999 is below 1. -/
theorem lt_9999 : (9999 / 10000 : ℚ) < 1 := by
  norm_num

/-- C1: for an action in the table the check passes iff
rank + 1e-4 ≥ required rank; on failure with throw it raises the
permission-denied error naming the action, the participant and both ranks
at 2 decimals; an action absent from the table raises ValueError. -/
theorem check_permission_spec (c : Channel) (action : String) (u : User) :
    (∀ minRank : ℚ, c.permissions.lookup action = some minRank →
      (c.check_permission action u true = .ok true ↔ minRank ≤ u.rank + RANK_PRECISION) ∧
      (u.rank + RANK_PRECISION < minRank →
        c.check_permission action u true =
          .error (.channelPermissionError (permDeniedMsg action u minRank)))) ∧
    (c.permissions.lookup action = none →
      c.check_permission action u true = .error (.valueError ("unknown action: " ++ action))) := by
  constructor
  · intro minRank hlook
    unfold Channel.check_permission
    rw [hlook, radd_eq]
    constructor
    · by_cases h : u.rank + RANK_PRECISION < minRank
      · simp [h]
      · simp [h, le_of_not_lt h]
    · intro h
      simp [h]
  · intro hlook
    unfold Channel.check_permission
    rw [hlook]

/-- C1 witness: with required rank 1.00, rank 0.9999 passes and
rank 0.9998 fails with the formatted denial, and an unknown action gives
ValueError. -/
theorem check_permission_spec_witness :
    let c : Channel := { name := "test", permissions := [("action", 1)] }
    let u1 : User := { name := "user", rank := 9999 / 10000 }
    let u2 : User := { name := "user2", rank := 9998 / 10000 }
    c.check_permission "action" u1 true = .ok true ∧
    c.check_permission "action" u2 true =
      .error (.channelPermissionError (permDeniedMsg "action" u2 1)) ∧
    c.check_permission "missing" u1 true = .error (.valueError "unknown action: missing") := by
  intro c u1 u2
  refine ⟨?_, ?_, ?_⟩
  · exact ((check_permission_spec c "action" u1).1 1 (by decide)).1.mpr
      (le_of_eq rank_sum_9999.symm)
  · exact (check_permission_spec c "action" u2).1 1 (by decide) |>.2
      (lt_of_eq_of_lt rank_sum_9998 lt_9999)
  · exact (check_permission_spec c "missing" u1).2 (by decide)

/-- C6: remove fails with a not-found error when the uid is absent
(including on an empty playlist, where the absence hypothesis holds
vacuously); removing the current entry resets current to none, the
playback time to 0 and paused to true; removing a non-current entry
preserves all three. -/
theorem playlist_remove_spec (pl : Playlist) (uid : Nat) :
    (pl.queue.all (fun it => it.uid != uid) →
      pl.remove uid = .error (.valueError "item not found")) ∧
    (∀ pl', pl.remove uid = .ok pl' →
      (pl.current = some uid →
        pl'.current = none ∧ pl'.current_time = 0 ∧ pl'.paused = true) ∧
      (pl.current ≠ some uid →
        pl'.current = pl.current ∧ pl'.current_time = pl.current_time ∧
          pl'.paused = pl.paused)) := by
  constructor
  · intro hall
    have h : pl.queue.any (fun it => it.uid == uid) = false := by
      rw [List.any_eq_false]
      intro it hit
      simpa using (List.all_eq_true.mp hall) it hit
    simp [Playlist.remove, h]
  · intro pl' hok
    unfold Playlist.remove at hok
    split at hok
    · split at hok
      next hc =>
        cases hok
        refine ⟨fun _ => ⟨rfl, rfl, rfl⟩, fun hne => absurd ?_ hne⟩
        simpa using hc
      next hc =>
        cases hok
        refine ⟨fun hcur => ?_, fun _ => ⟨rfl, rfl, rfl⟩⟩
        simp [hcur] at hc
    · exact Except.noConfusion hok

/-- C6 witness: on the concrete playlist, removing an absent uid fails,
and removing the current entry resets current, time and paused. -/
theorem playlist_remove_spec_witness :
    samplePl.remove 999 = .error (.valueError "item not found") ∧
    samplePl.remove 2 = .ok samplePlRemoved ∧
    samplePlRemoved.current = none ∧ samplePlRemoved.current_time = 0 ∧
      samplePlRemoved.paused = true := by
  refine ⟨(playlist_remove_spec samplePl 999).1 (by decide), by decide, ?_⟩
  exact ((playlist_remove_spec samplePl 2).2 samplePlRemoved (by decide)).1 (by decide)

/-- C7: move behaves as remove-then-insert-after: moving uid 1 to after
uid 3 in [1,2,3] yields [2,3,1]; and whenever the moved entry was the
current one, the result has current = none. -/
theorem playlist_move_spec :
    samplePlCur1.move 1 3 = .ok { queue := [it2, it3, it1] } ∧
    (∀ (pl pl' : Playlist) (f a : Nat), pl.move f a = .ok pl' →
      pl.current = some f → pl'.current = none) := by
  constructor
  · decide
  · intro pl pl' f a hmv hcur
    unfold Playlist.move at hmv
    cases hget : pl.get f with
    | error e => rw [hget] at hmv; exact Except.noConfusion hmv
    | ok item =>
      rw [hget] at hmv
      cases hrem : pl.remove f with
      | error e => rw [hrem] at hmv; exact Except.noConfusion hmv
      | ok q =>
        rw [hrem] at hmv
        have hq : q.current = none := by
          unfold Playlist.remove at hrem
          split at hrem
          · split at hrem
            next hc => cases hrem; rfl
            next hc => simp [hcur] at hc
          · exact Except.noConfusion hrem
        dsimp only at hmv
        unfold Playlist.add at hmv
        dsimp only at hmv
        cases hidx : List.findIdx? (fun it => it.uid == a) q.queue with
        | none =>
          rw [hidx] at hmv
          simp at hmv
        | some i =>
          rw [hidx] at hmv
          simp only [Except.ok.injEq] at hmv
          subst hmv
          exact hq

/-- C7 witness: moving the current entry (uid 1) to after uid 3 resets
current to none on the concrete playlist. -/
theorem playlist_move_spec_witness :
    ({ queue := [it2, it3, it1] } : Playlist).current = none := by
  exact (playlist_move_spec).2 samplePlCur1 { queue := [it2, it3, it1] } 1 3
    (by decide) (by decide)

/-- C8 counterexample: parse-then-synthesize is not the identity for every
supported provider — the soundcloud parse keeps the whole URL as the id
(as its unit tests require) and synthesis prepends the provider prefix, so
the round-trip fails there. -/
theorem media_roundtrip_counterexample :
    MediaLink.from_url "https://soundcloud.com/artist-name/track-name" =
      .ok ⟨"sc", "https://soundcloud.com/artist-name/track-name"⟩ ∧
    (MediaLink.mk "sc" "https://soundcloud.com/artist-name/track-name").url ≠
      "https://soundcloud.com/artist-name/track-name" := by
  constructor
  · decide
  · decide

/-- C8 (amended): the round-trip parse-then-synthesize is the identity for
the providers the round-trip tests exercise (youtube watch, twitch
channel, vimeo, raw file) — in particular the youtube example — while the
unsupported-extension URL and the insecure-scheme URL are rejected. -/
theorem media_roundtrip_spec :
    MediaLink.from_url "https://youtube.com/watch?v=dQw4w9WgXcQ" = .ok ⟨"yt", "dQw4w9WgXcQ"⟩ ∧
    (MediaLink.mk "yt" "dQw4w9WgXcQ").url = "https://youtube.com/watch?v=dQw4w9WgXcQ" ∧
    MediaLink.from_url "https://twitch.tv/ninja" = .ok ⟨"tw", "ninja"⟩ ∧
    (MediaLink.mk "tw" "ninja").url = "https://twitch.tv/ninja" ∧
    MediaLink.from_url "https://vimeo.com/123456789" = .ok ⟨"vi", "123456789"⟩ ∧
    (MediaLink.mk "vi" "123456789").url = "https://vimeo.com/123456789" ∧
    MediaLink.from_url "https://example.com/video.mp4" =
      .ok ⟨"fi", "https://example.com/video.mp4"⟩ ∧
    (MediaLink.mk "fi" "https://example.com/video.mp4").url = "https://example.com/video.mp4" ∧
    MediaLink.from_url "https://example.com/video.avi" =
      .error (.valueError "url does not match the supported file extensions") ∧
    MediaLink.from_url "http://example.com/video.mp4" =
      .error (.valueError "url must begin with \"https\"") := by
  refine ⟨by decide, by decide, by decide, by decide, by decide, by decide, by decide,
    by decide, by decide, by decide⟩

/-- C2 (code evaluation): set_afk emits the /afk chat command without any
permission check — at a state where the chat permission is denied it still
emits and succeeds, although check_permission on the same state denies. -/
theorem set_afk_missing_guard :
    deniedState.channel.check_permission "chat" deniedState.user true =
      .error (.channelPermissionError (permDeniedMsg "chat" deniedState.user 3)) ∧
    Bot.set_afk deniedState true =
      (deniedState, [Payload.chatCommand "/afk"], .ok ()) := by
  constructor
  · decide
  · decide

/-- C3: trigger runs the event's handlers in registration order (the
sequencing conjunct); with no fault it succeeds with no synthetic
dispatch; a control fault propagates unchanged; a non-control fault on an
event other than error produces exactly one synthetic error dispatch
carrying the original event, payload and fault, and no non-control fault
escapes; a non-control fault on the error event itself is swallowed with
no further dispatch. -/
theorem trigger_spec {St : Type} (hm : HandlerMap St) (ev : String) (d : EvData) (s : St) :
    (∀ s1, Bot.runHandlers (hm ev) ev d s = (s1, none) →
      Bot.trigger hm ev d s = (.ok s1, [])) ∧
    (∀ s1 f, Bot.runHandlers (hm ev) ev d s = (s1, some f) → f.isControl = true →
      Bot.trigger hm ev d s = (.error f, [])) ∧
    (∀ s1 f, Bot.runHandlers (hm ev) ev d s = (s1, some f) → f.isControl = false →
      ev ≠ "error" →
      (Bot.trigger hm ev d s).2 = [("error", EvData.errEvent ev d f)] ∧
      (∀ g, (Bot.trigger hm ev d s).1 = .error g → g.isControl = true)) ∧
    (∀ s1 f, Bot.runHandlers (hm ev) ev d s = (s1, some f) → f.isControl = false →
      ev = "error" → Bot.trigger hm ev d s = (.ok s1, [])) ∧
    (∀ (hh : Handler St) rest s', hh ev d s = .ok (s', false) →
      Bot.runHandlers (hh :: rest) ev d s = Bot.runHandlers rest ev d s') := by
  refine ⟨?_, ?_, ?_, ?_, ?_⟩
  · intro s1 h
    simp [Bot.trigger, h]
  · intro s1 f h hc
    simp [Bot.trigger, h, hc]
  · intro s1 f h hc hev
    have hev' : (ev == "error") = false := beq_eq_false_iff_ne.mpr hev
    simp only [Bot.trigger, h, hc, hev', Bool.false_eq_true, if_false]
    cases hrun : Bot.runHandlers (hm "error") "error" (EvData.errEvent ev d f) s1 with
    | mk s2 g? =>
      cases g? with
      | none =>
        refine ⟨rfl, ?_⟩
        intro g hgl
        exact Except.noConfusion hgl
      | some g =>
        by_cases hg : g.isControl
        · constructor
          · simp [hg]
          · intro g' h'
            simp only [hg, if_true] at h'
            exact (Except.error.inj h') ▸ hg
        · constructor
          · simp [hg]
          · intro g' h'
            simp only [hg, Bool.false_eq_true, if_false] at h'
            exact Except.noConfusion h'
  · intro s1 f h hc hev
    subst hev
    simp [Bot.trigger, h, hc]
  · intro hh rest s' hok
    simp [Bot.runHandlers, hok]

/-- C3 witness: a handler raising a non-control fault on the evt event
yields exactly one synthetic error dispatch with the original event,
payload and fault. -/
theorem trigger_spec_witness :
    (Bot.trigger testMap "evt" (EvData.payload "p") 0).2 =
      [("error", EvData.errEvent "evt" (EvData.payload "p") (Fault.other "boom"))] :=
  ((trigger_spec testMap "evt" (EvData.payload "p") 0).2.2.1 0 (Fault.other "boom")
    (by decide) (by decide) (by decide)).1

/-- C4: with the chat permission granted and the user unmuted, a chat-send
with no matched echo before the timeout fails with the generic channel
error; a matched noflood rejection fails with a permission-type error
carrying the server message; a matched success echo returns its payload
and leaves the local state unchanged. -/
theorem chat_correlation_spec (st : BotState) (msg : String) (meta : List (String × String)) :
    st.channel.check_permission "chat" st.user true = .ok true →
    st.user.muted = false → st.user.smuted = false →
    (Bot.chat st msg meta none =
      (st, [Payload.chatMsgP msg meta], .error (.channelError "could not send chat message"))) ∧
    (∀ d : ChatData, Bot.chat st msg meta (some ("noflood", d)) =
      (st, [Payload.chatMsgP msg meta],
        .error (.channelPermissionError (d.msg.getD "noflood")))) ∧
    (∀ (ev : String) (d : ChatData), ev ≠ "noflood" →
      matchChatResponse st.user.name ev d = true →
      Bot.chat st msg meta (some (ev, d)) = (st, [Payload.chatMsgP msg meta], .ok d)) := by
  intro hperm hmut hsm
  refine ⟨?_, ?_, ?_⟩
  · simp [Bot.chat, hperm, hmut, hsm]
  · intro d
    simp [Bot.chat, hperm, hmut, hsm]
  · intro ev d hne _
    have hne' : (ev == "noflood") = false := beq_eq_false_iff_ne.mpr hne
    simp [Bot.chat, hperm, hmut, hsm, hne']

/-- C4 witness: at a permitted unmuted state, the timeout, noflood and
success cases behave as stated. -/
theorem chat_correlation_spec_witness :
    Bot.chat okState "hi" [] none =
      (okState, [Payload.chatMsgP "hi" []],
        .error (.channelError "could not send chat message")) ∧
    Bot.chat okState "hi" [] (some ("noflood", { msg := some "flood" })) =
      (okState, [Payload.chatMsgP "hi" []], .error (.channelPermissionError "flood")) ∧
    Bot.chat okState "hi" [] (some ("chatMsg", { username := some "bot" })) =
      (okState, [Payload.chatMsgP "hi" []], .ok { username := some "bot" }) := by
  have h := chat_correlation_spec okState "hi" [] (by decide) (by decide) (by decide)
  exact ⟨h.1, h.2.1 { msg := some "flood" },
    h.2.2 "chatMsg" { username := some "bot" } (by decide) (by decide)⟩

/-- C10: when the table permission check passes and the bot user is muted
or shadow-muted, both chat and pm fail with the muted permission error,
emit nothing and leave the state unchanged; and when the table check
itself fails, its error is the one raised (the muted gate comes after the
table check). -/
theorem muted_gate_spec (st : BotState) (toName msg : String) (meta : List (String × String))
    (resp : Option (String × ChatData)) :
    (st.channel.check_permission "chat" st.user true = .ok true →
      (st.user.muted || st.user.smuted) = true →
      Bot.chat st msg meta resp = (st, [], .error (.channelPermissionError "muted")) ∧
      Bot.pm st toName msg meta resp = (st, [], .error (.channelPermissionError "muted"))) ∧
    (∀ e, st.channel.check_permission "chat" st.user true = .error e →
      Bot.chat st msg meta resp = (st, [], .error e) ∧
      Bot.pm st toName msg meta resp = (st, [], .error e)) := by
  constructor
  · intro hperm hmut
    constructor <;> simp [Bot.chat, Bot.pm, hperm, hmut]
  · intro e he
    constructor <;> simp [Bot.chat, Bot.pm, he]

/-- C10 witness: a muted user with the chat permission granted gets the
muted error from both chat and pm with no emission. -/
theorem muted_gate_spec_witness :
    Bot.chat mutedState "hi" [] none =
      (mutedState, [], .error (.channelPermissionError "muted")) ∧
    Bot.pm mutedState "alice" "hi" [] none =
      (mutedState, [], .error (.channelPermissionError "muted")) :=
  (muted_gate_spec mutedState "alice" "hi" [] none).1 (by decide) (by decide)

/-- C9: for setUserMeta, setUserRank and setAFK, a blank or missing name
leaves the whole state unchanged, and a non-blank name absent from the
roster is likewise a no-op. -/
theorem user_event_noop_spec (st : BotState) (dm : NameMeta) (dr : NameRank) (da : NameAfk) :
    ((dm.name = none ∨ dm.name = some "") → Bot.on_setUserMeta st dm = st) ∧
    ((dr.name = none ∨ dr.name = some "") → Bot.on_setUserRank st dr = st) ∧
    ((da.name = none ∨ da.name = some "") → Bot.on_setAFK st da = st) ∧
    (∀ n, dm.name = some n → n ≠ "" →
      st.channel.userlist.all (fun u => u.name != n) → Bot.on_setUserMeta st dm = st) ∧
    (∀ n, dr.name = some n → n ≠ "" →
      st.channel.userlist.all (fun u => u.name != n) → Bot.on_setUserRank st dr = st) ∧
    (∀ n, da.name = some n → n ≠ "" →
      st.channel.userlist.all (fun u => u.name != n) → Bot.on_setAFK st da = st) := by
  have hany : ∀ (n : String), st.channel.userlist.all (fun u => u.name != n) →
      (st.channel.userlist.any (fun u => u.name == n)) = false := by
    intro n hall
    rw [List.any_eq_false]
    intro u hu
    simpa using (List.all_eq_true.mp hall) u hu
  refine ⟨?_, ?_, ?_, ?_, ?_, ?_⟩
  · rintro (h | h) <;> simp [Bot.on_setUserMeta, h]
  · rintro (h | h) <;> simp [Bot.on_setUserRank, h]
  · rintro (h | h) <;> simp [Bot.on_setAFK, h]
  · intro n hn hne hall
    have hne' : (n == "") = false := beq_eq_false_iff_ne.mpr hne
    simp [Bot.on_setUserMeta, hn, hne', hany n hall]
  · intro n hn hne hall
    have hne' : (n == "") = false := beq_eq_false_iff_ne.mpr hne
    simp [Bot.on_setUserRank, hn, hne', hany n hall]
  · intro n hn hne hall
    have hne' : (n == "") = false := beq_eq_false_iff_ne.mpr hne
    simp [Bot.on_setAFK, hn, hne', hany n hall]

/-- C9 witness: a blank setUserMeta name, a missing setUserRank name and
an unknown setAFK name each leave a concrete state untouched. -/
theorem user_event_noop_spec_witness :
    Bot.on_setUserMeta okState { name := some "" } = okState ∧
    Bot.on_setUserRank okState { name := none, rank := 2 } = okState ∧
    Bot.on_setAFK okState { name := some "ghost", afk := true } = okState := by
  have h := user_event_noop_spec okState { name := some "" }
    { name := none, rank := 2 } { name := some "ghost", afk := true }
  exact ⟨h.1 (Or.inr rfl), h.2.1 (Or.inl rfl), h.2.2.2.2.2 "ghost" rfl (by decide) (by decide)⟩

/-- C5: a login rejection whose message matches the guest-rate-limit
pattern with N seconds causes exactly one sleep of max(N,1) before
retrying on the remaining responses; a non-matching rejection is a fatal
login error on that first attempt; and on success — including anonymous
mode — the synthetic login event carrying the engine itself is fired. -/
theorem login_retry_spec (st : BotState) (d : LoginData) (rest : List (Option LoginData)) :
    (∀ n m, d.success = false → d.error = some m → guestLoginLimit m = some n →
      Bot.loginLoop (some d :: rest) =
        (max n 1 :: (Bot.loginLoop rest).1, (Bot.loginLoop rest).2)) ∧
    (∀ m, d.success = false → d.error = some m → guestLoginLimit m = none →
      Bot.loginLoop (some d :: rest) = ([], .error (.loginError m))) ∧
    (st.user.name = "" → ∀ lr, Bot.login st (some "") lr =
      ([], [("login", TrigPayload.selfRef)], .ok ())) ∧
    (∀ lr sl, st.user.name ≠ "" → Bot.loginLoop lr = (sl, .ok ()) →
      Bot.login st (some "") lr = (sl, [("login", TrigPayload.selfRef)], .ok ())) := by
  refine ⟨?_, ?_, ?_, ?_⟩
  · intro n m hs he hg
    simp [Bot.loginLoop, hs, he, hg]
  · intro m hs he hg
    simp [Bot.loginLoop, hs, he, hg]
  · intro hname lr
    have h1 : (("" : String) == "needPassword") = false := by decide
    simp [Bot.login, hname, h1]
  · intro lr sl hname hloop
    have h1 : (("" : String) == "needPassword") = false := by decide
    have hname' : (st.user.name == "") = false := beq_eq_false_iff_ne.mpr hname
    simp [Bot.login, h1, hname', hloop]

/-- C5 witness: the concrete rate-limit message parses to 2 seconds, the
retry loop sleeps max(2,1) once before retrying, and anonymous login fires
the login event. -/
theorem login_retry_spec_witness :
    guestLoginLimit limitMsg = some 2 ∧
    Bot.loginLoop [some { success := false, error := some limitMsg }, some { success := true }] =
      (max 2 1 :: (Bot.loginLoop [some { success := true }]).1,
        (Bot.loginLoop [some { success := true }]).2) ∧
    Bot.login anonState (some "") [] = ([], [("login", TrigPayload.selfRef)], .ok ()) := by
  refine ⟨by decide, ?_, ?_⟩
  · exact (login_retry_spec anonState { success := false, error := some limitMsg }
      [some { success := true }]).1 2 limitMsg rfl rfl (by decide)
  · exact (login_retry_spec anonState { success := false, error := some limitMsg } []).2.2.1 rfl []

end Cytube
